import Mathlib

/-!
Verification of the Clarity front-end (clarity-app) against its
natural-language specification.  Each section shallowly embeds one part of
the TypeScript source as executable Lean definitions and proves the claims
about it.
-/

namespace Clarity

/-! ### `src/frontend/project/src/utils/rateLimiter.ts`

The `RateLimiter` class keeps a list of request timestamps (milliseconds).
`canMakeRequest` drops timestamps older than the 60000 ms window and
compares the count with `maxRequestsPerMinute`; `getTimeUntilNextRequest`
returns 0 when a request may be made and otherwise the time until the
oldest retained timestamp leaves the window.  Timestamps and `Date.now()`
are modelled as integers; the mutation of `this.requests` is modelled by
returning the updated state. -/

structure RateLimiter where
  requests : List Int
  maxRequestsPerMinute : Nat

/-- `requestInterval = 60000` (one minute in milliseconds). -/
def requestInterval : Int := 60000

/-- `this.requests.filter(timestamp => now - timestamp < this.requestInterval)` -/
def filterWindow (now : Int) (reqs : List Int) : List Int :=
  reqs.filter (fun timestamp => now - timestamp < requestInterval)

/-- `canMakeRequest()`: filters the timestamp list in place, then compares
its length with `maxRequestsPerMinute`.  Returns the boolean result and the
updated state. -/
def canMakeRequest (s : RateLimiter) (now : Int) : Bool × RateLimiter :=
  let reqs := filterWindow now s.requests
  (decide (reqs.length < s.maxRequestsPerMinute), { s with requests := reqs })

/-- `Math.min(...this.requests)` on the (already filtered) list.  JavaScript
returns `Infinity` on an empty list; that case is unreachable whenever
`maxRequestsPerMinute > 0` and is modelled by `none`. -/
def mathMin (l : List Int) : Option Int := l.min?

/-- `getTimeUntilNextRequest()`: 0 when `canMakeRequest()` holds, othewise
`requestInterval - (now - oldestRequest)` where `oldestRequest` is the
minimum of the retained timestamps.  The unreachable empty-list case
(JavaScript would produce `-Infinity`) is mapped to 0. -/
def getTimeUntilNextRequest (s : RateLimiter) (now : Int) : Int × RateLimiter :=
  let r := canMakeRequest s now
  if r.1 then (0, r.2)
  else
    match mathMin r.2.requests with
    | some oldestRequest => (requestInterval - (now - oldestRequest), r.2)
    | none => (0, r.2)

/-! ### `src/frontend/project/src/utils/transformationRules.ts` -/

/-- One rewrite rule `{from: /…/g, to: '…'}`; the regex is kept as its
source pattern text. -/
structure Rule where
  fromPattern : String
  toText : String
deriving DecidableEq, Repr

/-- `simplificationRulesL1` — the fixed 15-rule list used when simplifying. -/
def simplificationRulesL1 : List Rule :=
  [⟨"utilize", "use"⟩,
   ⟨"implement", "do"⟩,
   ⟨"facilitate", "help"⟩,
   ⟨"subsequently", "then"⟩,
   ⟨"nevertheless", "but"⟩,
   ⟨"approximately", "about"⟩,
   ⟨"sufficient", "enough"⟩,
   ⟨"attempt", "try"⟩,
   ⟨"determine", "find out"⟩,
   ⟨"require", "need"⟩,
   ⟨"\\bconclude\\b", "end"⟩,
   ⟨"\\binitiate\\b", "start"⟩,
   ⟨"\\bproceed\\b", "go"⟩,
   ⟨"\\bobtain\\b", "get"⟩,
   ⟨"\\bpurchase\\b", "buy"⟩]

/-- `complexityRulesL5` — the fixed 15-rule list used when complexifying. -/
def complexityRulesL5 : List Rule :=
  [⟨"\\buse\\b", "utilize"⟩,
   ⟨"\\bhelp\\b", "facilitate"⟩,
   ⟨"\\bthen\\b", "subsequently"⟩,
   ⟨"\\bbut\\b", "nevertheless"⟩,
   ⟨"\\bmake\\b", "implement"⟩,
   ⟨"\\bshow\\b", "demonstrate"⟩,
   ⟨"\\bget\\b", "obtain"⟩,
   ⟨"\\bstart\\b", "initiate"⟩,
   ⟨"\\bend\\b", "conclude"⟩,
   ⟨"\\bdo\\b", "execute"⟩,
   ⟨"\\bsay\\b", "articulate"⟩,
   ⟨"\\bthink\\b", "contemplate"⟩,
   ⟨"\\bwork\\b", "endeavor"⟩,
   ⟨"\\btry\\b", "attempt"⟩,
   ⟨"\\bneed\\b", "necessitate"⟩]

/-- `Math.ceil(a / b)` for natural `a`, `b > 0`. -/
def jsCeilDiv (a b : Nat) : Nat := (a + b - 1) / b

/-- `getRules(level, isSimplifying)`:
`rulesPerLevel = Math.ceil(maxRules.length / 5)`;
`numRules = Math.ceil((6 - level) * rulesPerLevel)` when simplifying and
`Math.ceil(level * rulesPerLevel)` otherwise (both products are already
integral, so the outer `Math.ceil` is the identity);
result `maxRules.slice(0, numRules)`. -/
def getRules (level : Nat) (isSimplifying : Bool) : List Rule :=
  let maxRules := if isSimplifying then simplificationRulesL1 else complexityRulesL5
  let rulesPerLevel := jsCeilDiv maxRules.length 5
  let numRules := if isSimplifying then (6 - level) * rulesPerLevel
                  else level * rulesPerLevel
  maxRules.take numRules

/-- A `take` is always a prefix. -/
lemma take_isPre (l : List α) (n : Nat) : l.take n <+: l :=
  ⟨l.drop n, List.take_append_drop n l⟩

/-- `take` is monotone with respect to the prefix order. -/
lemma take_isPre_mono (l : List α) {m n : Nat} (h : m ≤ n) :
    l.take m <+: l.take n := by
  have hmin : (l.take n).take m = l.take m := by
    rw [List.take_take, Nat.min_eq_left h]
  calc l.take m = (l.take n).take m := hmin.symm
    _ <+: l.take n := take_isPre _ m

/-! ### JavaScript string helpers -/

/-- `pat` is a prefix of `l` (boolean test). -/
def listIsPre [DecidableEq α] : List α → List α → Bool
  | [], _ => true
  | _ :: _, [] => false
  | a :: as, b :: bs => a = b && listIsPre as bs

/-- `pat` occurs as a contiguous sublist of `l` (boolean test). -/
def listContains [DecidableEq α] (pat : List α) (l : List α) : Bool :=
  listIsPre pat l ||
    (match l with
     | [] => false
     | _ :: rest => listContains pat rest)

lemma listIsPre_self_append [DecidableEq α] (p t : List α) :
    listIsPre p (p ++ t) = true := by
  induction p with
  | nil => rfl
  | cons a as ih => simp [listIsPre, ih]

lemma listContains_of_isPre [DecidableEq α] (p l : List α)
    (h : listIsPre p l = true) : listContains p l = true := by
  cases l <;> simp [listContains, h]

lemma listContains_cons [DecidableEq α] (p : List α) (a : α) (l : List α)
    (h : listContains p l = true) : listContains p (a :: l) = true := by
  simp [listContains, h]

/-- If the text decomposes as `pre ++ pat ++ post` then `pat` is found. -/
lemma listContains_append [DecidableEq α] (pre p post : List α) :
    listContains p (pre ++ p ++ post) = true := by
  induction pre with
  | nil => exact listContains_of_isPre _ _ (listIsPre_self_append p post)
  | cons a pre ih => exact listContains_cons _ _ _ ih

/-- `s.includes(pat)` — substring containment, via the character lists. -/
def strContains (s pat : String) : Bool := listContains pat.data s.data

/-- JavaScript `a || b` on a possibly-absent string `a` (both `undefined`
and the empty string are falsy). -/
def jsOr (a : Option String) (b : String) : String :=
  match a with
  | some s => if s = "" then b else s
  | none => b

/-- JavaScript truthiness of a possibly-absent string field. -/
def truthyS : Option String → Bool
  | some s => s ≠ ""
  | none => false

/-! ### `ApiService.request` error mapping (`src/services/api.ts`)

`request` reads the response text, parses it as JSON (throwing an
`ApiRequestError` with the response's status when parsing fails), and then
maps a non-OK response to an `ApiRequestError`: status 500 gets the message
`'Server error'` with `data.detail || data.message || <default>` as detail,
any other non-OK status gets `data.message || 'An error occurred'` with
`data.detail || 'Server returned <status>'`. -/

/-- The `message`/`detail` fields of the parsed JSON error body. -/
structure ErrData where
  message : Option String
  detail : Option String

/-- Outcome of `response.text()` + `JSON.parse`. -/
inductive ParseResult
  | parseFailed (errMsg : String)
  | parsed (data : ErrData)

/-- The `error` payload of an `ApiRequestError` (`status`, `message`,
`detail`); every construction site in `request` supplies a detail. -/
structure ApiErrorS where
  status : Nat
  message : String
  detail : String
deriving DecidableEq, Repr

/-- Error mapping of `ApiService.request` for a response with the given
status, `response.ok` flag and body-parse outcome. -/
def requestOutcome (status : Nat) (ok : Bool) (parse : ParseResult) :
    Except ApiErrorS Unit :=
  match parse with
  | .parseFailed m => .error ⟨status, "Failed to parse server response", m⟩
  | .parsed data =>
    if ok then .ok ()
    else if status = 500 then
      .error ⟨500, "Server error",
        jsOr data.detail (jsOr data.message
          "The server encountered an internal error. Please try again later or contact support if the issue persists.")⟩
    else
      .error ⟨status, jsOr data.message "An error occurred",
        jsOr data.detail ("Server returned " ++ toString status)⟩

/-! ### `TransformPage.handleTransform` — error display

On an `ApiRequestError` the page builds a user-visible string from the
error's message, detail and status (`setError(...)`). -/

def openAIMarker : String := "OpenAI API error: Connection error"

/-- The troubleshooting text attached when the detail shows an OpenAI
connection error. -/
def openAITroubleshooting : String :=
  "\n\nThe server cannot connect to OpenAI. This could be due to:\n\n" ++
  "1. OpenAI API may be experiencing downtime\n" ++
  "2. The server\x27s OpenAI API key may be invalid or expired\n" ++
  "3. Network connectivity issues on the server\n\n" ++
  "Troubleshooting:\n" ++
  "\u2022 Try again in a few minutes\n" ++
  "\u2022 Contact the administrator as the API key may need to be updated\n" ++
  "\u2022 Check OpenAI status page at status.openai.com"

/-- The string passed to `setError` for an `ApiRequestError` in
`TransformPage.handleTransform`. -/
def displayTransformError (e : ApiErrorS) : String :=
  let errorDetail := e.detail
  let serverError := e.status = 500
  let errorMessage := jsOr (some e.message) "API request failed"
  let pair :=
    if strContains errorDetail openAIMarker then
      ("OpenAI API Connection Error", openAITroubleshooting)
    else if serverError then
      ("Server error: " ++ errorMessage ++ ". Our team has been notified of this issue.",
       "\n\nTroubleshooting steps:\n1. Try with different text\n2. Try a different transformation type\n3. Contact support if the issue persists")
    else if strContains errorDetail "Connection error" ||
            strContains errorDetail "Failed to connect" then
      (errorMessage,
       "\n\nTroubleshooting steps:\n1. Check your internet connection\n2. Verify the API server is running\n3. Try again in a few minutes")
    else (errorMessage, "")
  pair.1 ++ (if errorDetail ≠ "" then "\n\nDetails: " ++ errorDetail else "") ++ pair.2

/-! ### `ApiService.transformText` (`src/services/api.ts`) and its callers

`transformText` POSTs `JSON.stringify(request)` to
`API_ENDPOINTS.transform = API_URL + '/api/transform'`.
`TransformPage.handleTransform` builds the request object
`{text, transformationType, level}`; `LecturePage.handleGenerateTransform`
builds `{text, transformationType, level, isLecture: true}`.  The caller
consumes `response.transformedText`. -/

/-- The runtime transform-request object.  The `TransformRequest` interface
in `types/api.ts` declares `text`, `transformationType` and `level`; the
lecture page additionally sets `isLecture: true` on the object it passes. -/
structure TransformRequest where
  text : String
  transformationType : String
  level : Int
  isLecture : Option Bool := none
deriving DecidableEq, Repr

/-- The field names of `JSON.stringify(request)`, in insertion order. -/
def requestBodyFields (r : TransformRequest) : List String :=
  ["text", "transformationType", "level"] ++
    (match r.isLecture with
     | some _ => ["isLecture"]
     | none => [])

/-- `API_ENDPOINTS.transform` (`src/config/api.ts`). -/
def apiTransformEndpoint (apiUrl : String) : String := apiUrl ++ "/api/transform"

/-- The HTTP call issued by `fetch` in `ApiService.request`, as far as the
claims are concerned: URL, method and the serialised body's field names. -/
structure FetchCall where
  url : String
  method : String
  bodyFields : List String
deriving DecidableEq, Repr

/-- `ApiService.transformText(request, token)`: POST to the transform
endpoint with the serialised request as body. -/
def transformTextCall (apiUrl : String) (request : TransformRequest) : FetchCall :=
  { url := apiTransformEndpoint apiUrl
    method := "POST"
    bodyFields := requestBodyFields request }

/-- The request object built in `TransformPage.handleTransform`. -/
def transformPageRequest (inputText transformType : String) (level : Int) :
    TransformRequest :=
  { text := inputText, transformationType := transformType, level := level }

/-- The request object built in `LecturePage.handleGenerateTransform`
(`components/lecture/LecturePage.tsx`), which adds `isLecture: true`. -/
def lecturePageRequest (currentText transformationType : String) (level : Int) :
    TransformRequest :=
  { text := currentText, transformationType := transformationType,
    level := level, isLecture := some true }

/-- The transform response body; callers read `response.transformedText`. -/
structure TransformResponse where
  transformedText : String
deriving DecidableEq, Repr

/-- What both pages deliver from a successful call:
`setOutputText(response.transformedText)`. -/
def deliverTransformResponse (response : TransformResponse) : String :=
  response.transformedText

/-! ### `PresentationViewer.handleFileUpload` — upload response dispatch

After a successful `fetch` + `JSON.parse` of the upload response, the
handler (in order): throws on `!response.ok`; throws on a truthy
`responseData.error`; displays PDFs (`file.type === 'application/pdf'`)
with a truthy `document_id` immediately from an object URL; displays
PowerPoint files with a truthy `document_id` through the Office Online
Viewer; enters the status-polling loop when
`responseData.status === "processing"` and `check_status_url` is truthy;
displays `apiUrl + responseData.url` when `url` is truthy; and otherwise
throws `'No URL or status check URL returned from server'`. -/

/-- The fields of the parsed upload response body that the handler reads. -/
structure UploadBody where
  error : Option String := none
  detail : Option String := none
  document_id : Option String := none
  status : Option String := none
  check_status_url : Option String := none
  url : Option String := none
deriving DecidableEq, Repr

def pdfMime : String := "application/pdf"

def isPowerPointType (t : String) : Bool :=
  t = "application/vnd.ms-powerpoint" ||
  t = "application/vnd.openxmlformats-officedocument.presentationml.presentation"

/-- What the handler does next for one parsed upload response. -/
inductive UploadAction
  | throwError (msg : String)
  | displayPdfDirect (docId : String)
  | displayOffice (docId : String)
  | poll (checkUrl : String)
  | displayUrl (fullUrl : String)
deriving DecidableEq, Repr

/-- The branch structure of `handleFileUpload` on a parsed response. -/
def dispatchUpload (fileType : String) (ok : Bool) (body : UploadBody)
    (apiUrl : String) : UploadAction :=
  if !ok then .throwError (jsOr body.detail "Failed to upload file")
  else if truthyS body.error then .throwError (jsOr body.error "")
  else if fileType = pdfMime && truthyS body.document_id then
    .displayPdfDirect (jsOr body.document_id "")
  else if isPowerPointType fileType && truthyS body.document_id then
    .displayOffice (jsOr body.document_id "")
  else if body.status = some "processing" && truthyS body.check_status_url then
    .poll (jsOr body.check_status_url "")
  else if truthyS body.url then
    .displayUrl (apiUrl ++ jsOr body.url "")
  else .throwError "No URL or status check URL returned from server"

/-! ### The status-polling loop inside `handleFileUpload`

`while (statusCheckCount < maxStatusChecks)`: wait 2000 ms, fetch the
status URL; a failed check (network error, non-OK status or unparseable
body — and likewise the `throw` raised for a parsed `status === "error"`,
which the same `catch` swallows) waits 5000 ms more and falls back to
displaying `apiUrl + '/static/presentations/' + document_id +
'/document.pdf'`; a `complete`/`completed` status with a URL (or files)
displays `apiUrl + '/static/presentations/' + statusData.document_id +
'/presentation.pdf'`; from the check with `statusCheckCount >= 5` onwards a
still-`processing` PDF is displayed directly from
`'/static/uploads/' + statusData.document_id + '.pdf'`; after ten
unsuccessful checks the loop throws `'Document processing timed out'`. -/

/-- The status fields read from one parsed status response. -/
structure StatusData where
  status : String
  url : Option String := none
  filesCount : Nat := 0
  document_id : String := ""
  error : Option String := none
deriving DecidableEq, Repr

/-- One status check either fails (network error, non-OK status,
unparseable body) or yields parsed data. -/
inductive PollStep
  | failed
  | data (d : StatusData)

/-- Observable events of the polling loop. -/
inductive UEvent
  | wait (ms : Nat)
  | check (i : Nat)
  | display (url : String)
  | throwErr (msg : String)
deriving DecidableEq, Repr

def maxStatusChecks : Nat := 10

/-- `statusData` is ready: `complete`/`completed` with a URL or files. -/
def statusReady (d : StatusData) : Bool :=
  (d.status = "complete" || d.status = "completed") &&
  (truthyS d.url || d.filesCount > 0)

/-- The fallback URL built in the status-check `catch`
(from `responseData.document_id`). -/
def statusFallbackUrl (apiUrl docId : String) : String :=
  apiUrl ++ "/static/presentations/" ++ docId ++ "/document.pdf"

/-- The loop body, with `fuel = maxStatusChecks - statusCheckCount`;
`steps i` is the outcome of the `i`-th status check (0-based). -/
def pollGo (isPdf : Bool) (apiUrl docId : String) (steps : Nat → PollStep) :
    Nat → Nat → List UEvent
  | _, 0 => [.throwErr "Document processing timed out"]
  | i, fuel + 1 =>
    .wait 2000 :: .check i ::
      (match steps i with
       | .failed =>
         [.wait 5000, .display (statusFallbackUrl apiUrl docId)]
       | .data d =>
         if statusReady d then
           [.display (apiUrl ++ "/static/presentations/" ++ d.document_id ++
             "/presentation.pdf")]
         else if d.status = "error" then
           [.wait 5000, .display (statusFallbackUrl apiUrl docId)]
         else if 5 ≤ i && d.status = "processing" && isPdf then
           [.display (apiUrl ++ "/static/uploads/" ++ d.document_id ++ ".pdf")]
         else pollGo isPdf apiUrl docId steps (i + 1) fuel)

/-- The full polling loop (`statusCheckCount` starts at 0). -/
def pollTrace (isPdf : Bool) (apiUrl docId : String) (steps : Nat → PollStep) :
    List UEvent :=
  pollGo isPdf apiUrl docId steps 0 maxStatusChecks

/-- Number of status checks in a trace. -/
def countChecks : List UEvent → Nat
  | [] => 0
  | .check _ :: rest => countChecks rest + 1
  | _ :: rest => countChecks rest

/-- Every `check` event is immediately preceded by a `wait 2000`. -/
def checksPreceded : List UEvent → Bool
  | [] => true
  | .wait w :: .check _ :: rest => (w = 2000) && checksPreceded rest
  | .check _ :: _ => false
  | _ :: rest => checksPreceded rest

/-! ### The upload retry loop inside `handleFileUpload`

`maxRetries = 3`; `while (retryCount < maxRetries)` performs one upload
attempt; on failure it increments `retryCount` and, if another attempt
remains, waits `1000 * retryCount` ms; when the loop exits it rethrows the
last error. -/

def maxRetries : Nat := 3

/-- Outcome of one whole upload attempt (the body of the `while` loop). -/
inductive AttemptResult
  | ok (value : String)
  | err (msg : String)

/-- The retry loop: returns the backoff delays performed, the number of
attempts made, and the final outcome (`Except` carries `lastError`, which
is `none` only if no attempt ever ran).  `fuel = maxRetries - retryCount`. -/
def retryGo (attempts : Nat → AttemptResult) (lastError : Option String) :
    Nat → Nat → List Nat → List Nat × Nat × Except (Option String) String
  | _, 0, delays => (delays, 0, .error lastError)
  | retryCount, fuel + 1, delays =>
    match attempts retryCount with
    | .ok v => (delays, 1, .ok v)
    | .err m =>
      let rc := retryCount + 1
      let delays' := if rc < maxRetries then delays ++ [1000 * rc] else delays
      let r := retryGo attempts (some m) rc fuel delays'
      (r.1, r.2.1 + 1, r.2.2)

/-- The whole retry loop of `handleFileUpload`. -/
def uploadRetryLoop (attempts : Nat → AttemptResult) :
    List Nat × Nat × Except (Option String) String :=
  retryGo attempts none 0 maxRetries []

/-! ### `TransformPage.handleTransform` — input validation

Order of the guards: empty (trimmed) input; length above 250; rate limit.
Only when all pass is the request object built and submitted.  String
length is modelled by `String.length` (the level and type values involved
are ASCII). -/

/-- The whitespace characters relevant to `String.prototype.trim` on this
code's inputs. -/
def isWhitespaceChar (c : Char) : Bool :=
  c = ' ' || c = '\t' || c = '\n' || c = '\r'

/-- `inputText.trim()` — strip leading and trailing whitespace. -/
def jsTrim (s : String) : String :=
  ⟨((s.data.dropWhile isWhitespaceChar).reverse.dropWhile
      isWhitespaceChar).reverse⟩

/-- Digit value of a character (for `parseInt`). -/
def digitVal (c : Char) : Option Nat :=
  if c = '0' then some 0 else if c = '1' then some 1 else if c = '2' then some 2
  else if c = '3' then some 3 else if c = '4' then some 4 else if c = '5' then some 5
  else if c = '6' then some 6 else if c = '7' then some 7 else if c = '8' then some 8
  else if c = '9' then some 9 else none

def jsParseIntAux : List Char → Nat → Option Nat
  | [], acc => some acc
  | c :: cs, acc =>
    match digitVal c with
    | some d => jsParseIntAux cs (acc * 10 + d)
    | none => none

/-- `parseInt` as used on the level select values `'1'`–`'5'` (a plain
decimal-digit parser; those values contain only digits). -/
def jsParseInt (s : String) : Int :=
  match s.data with
  | [] => 0
  | l => ((jsParseIntAux l 0).getD 0 : Nat)

/-- `Math.ceil(waitTime / 1000)` for the non-negative wait times the rate
limiter produces. -/
def ceilSeconds (w : Int) : Int := ((w.toNat + 999) / 1000 : Nat)

/-- Result of the validation phase of `handleTransform`: either
`setError(msg)` with no request sent, or a request submitted. -/
inductive TPOutcome
  | errorMsg (msg : String)
  | request (req : TransformRequest)
deriving DecidableEq, Repr

/-- The validation phase of `TransformPage.handleTransform`. -/
def handleTransformValidate (inputText transformType transformLevel : String)
    (rl : RateLimiter) (now : Int) : TPOutcome :=
  if jsTrim inputText = "" then
    .errorMsg "Please enter some text to transform"
  else if inputText.length > 250 then
    .errorMsg "Text cannot exceed 250 characters"
  else if !(canMakeRequest rl now).1 then
    .errorMsg ("Please wait " ++
      toString (ceilSeconds (getTimeUntilNextRequest rl now).1) ++
      " seconds before trying again")
  else
    .request (transformPageRequest inputText transformType (jsParseInt transformLevel))

/-- `setOutputText` runs only on a successful response; a validation error
leaves the previous output in place. -/
def outputAfterTransform (prevOutput : String) (o : TPOutcome)
    (respond : TransformRequest → TransformResponse) : String :=
  match o with
  | .errorMsg _ => prevOutput
  | .request req => deliverTransformResponse (respond req)

/-- The `<option>` values of the transformation-type select on
`TransformPage`. -/
def transformTypeOptionValues : List String :=
  ["simplify", "sophisticate", "casualise", "formalise"]

/-- `getLevelOptions(type)` from `TransformPage` — `(value, label)` pairs. -/
def getLevelOptions (ttype : String) : List (String × String) :=
  if ttype = "simplify" then
    [("1", "Level 1 - Elementary (Age 7-8)"),
     ("2", "Level 2 - Middle School (Age 11-12)"),
     ("3", "Level 3 - High School (Age 14-15)"),
     ("4", "Level 4 - College Freshman"),
     ("5", "Level 5 - General Adult")]
  else if ttype = "sophisticate" then
    [("1", "Level 1 - Professional"),
     ("2", "Level 2 - Academic Undergraduate"),
     ("3", "Level 3 - Academic Graduate"),
     ("4", "Level 4 - Expert/Specialist"),
     ("5", "Level 5 - Advanced Academic")]
  else if ttype = "casualise" then
    [("1", "Level 1 - Polite Casual"),
     ("2", "Level 2 - Relaxed"),
     ("3", "Level 3 - Very Casual"),
     ("4", "Level 4 - Super Casual"),
     ("5", "Level 5 - Ultra Casual")]
  else if ttype = "formalise" then
    [("1", "Level 1 - Basic Professional"),
     ("2", "Level 2 - Business Formal"),
     ("3", "Level 3 - Executive Level"),
     ("4", "Level 4 - Legal/Corporate"),
     ("5", "Level 5 - Diplomatic/Governmental")]
  else []

/-! ### `components/lecture/LecturePage.tsx` — lecture transform guard

`handleTransform(text)` records `isOverLimit = text.length > 1000`;
`handleGenerateTransform` returns immediately when `!currentText ||
isOverLimit`, otherwise submits `{text, transformationType, level,
isLecture: true}`.  The `UnderstandOutput` panel renders the warning
`Text exceeds 1000 character limit` when over the limit, and its level
select offers exactly the values 1–5. -/

def lectureCharacterLimit : Nat := 1000

/-- `setIsOverLimit(text.length > 1000)`. -/
def lectureIsOverLimit (text : String) : Bool :=
  decide (text.length > lectureCharacterLimit)

/-- `handleGenerateTransform`: `none` when no request is sent. -/
def handleGenerateTransform (currentText : Option String) (isOverLimit : Bool)
    (transformationType : String) (level : Int) : Option TransformRequest :=
  if !truthyS currentText then none
  else if isOverLimit then none
  else some (lecturePageRequest (jsOr currentText "") transformationType level)

/-- The over-limit warning rendered by `UnderstandOutput`
(`Text exceeds ${CHARACTER_LIMIT} character limit`). -/
def understandOutputLimitWarning (isOverLimit : Bool) : Option String :=
  if isOverLimit then some "Text exceeds 1000 character limit" else none

/-- The values of the `UnderstandOutput` level select (`[1, 2, 3, 4, 5]`). -/
def understandLevelValues : List Int := [1, 2, 3, 4, 5]

/-! ### Token/session expiry handling (C7)

`LecturePage.handleGenerateTransform`'s catch: a message containing
`Missing Refresh Token` sets an error and schedules `loginWithRedirect`
(2000 ms later); anything else only sets an error.
`TransformPage.handleTransform`'s token catch: a message containing
`Missing Refresh Token` or `invalid_grant` sets an error and returns; the
file contains no `loginWithRedirect` call at all. -/

/-- What a catch block does: the error text shown and whether a
re-authentication redirect is triggered. -/
structure CatchResult where
  errorMsg : String
  redirects : Bool
deriving DecidableEq, Repr

/-- The catch block of `LecturePage.handleGenerateTransform`. -/
def lectureTransformCatch (errMessage : String) : CatchResult :=
  if strContains errMessage "Missing Refresh Token" then
    { errorMsg := "Your session has expired. Please log in again."
      redirects := true }
  else
    { errorMsg := "Unable to process text at the moment. Please try again."
      redirects := false }

/-- The token-error catch block of `TransformPage.handleTransform`.  The
non-matching case rethrows to the outer catch, which only sets an error
string; no path in `TransformPage` calls `loginWithRedirect`, so
`redirects` is `false` throughout. -/
inductive TokenErrorAction
  | sessionExpiredMessage (msg : String)
  | rethrow
deriving DecidableEq, Repr

def transformPageTokenCatch (m : String) : TokenErrorAction :=
  if strContains m "Missing Refresh Token" || strContains m "invalid_grant" then
    .sessionExpiredMessage "Authentication session expired. Please log out and log back in."
  else .rethrow

/-- Whether a `TokenErrorAction` triggers a re-authentication redirect
(none does: `TransformPage` has no `loginWithRedirect` call). -/
def tokenActionRedirects : TokenErrorAction → Bool
  | .sessionExpiredMessage _ => false
  | .rethrow => false

/-! ### `components/lecture/LecturePage.tsx` — `FileUpload` (C10)

`validateFile` enforces the 20 MB limit and the supported MIME-type list.
`handleFileChange` (file picker) alerts and returns when validation fails;
for a PDF it then runs `extractPdfText(file)` — when extraction throws, or
the extracted text is falsy (`if (!text) throw`), the catch alerts and
`uploadFile` is never reached — and otherwise calls `uploadFile`.
`handleFileDrop` calls `uploadFile(e.dataTransfer.files[0])` directly,
with no validation.  `FileContext.uploadFile` adds the file to the list
unconditionally. -/

def MAX_FILE_SIZE : Nat := 20 * 1024 * 1024

def SUPPORTED_FORMATS : List String :=
  ["application/pdf",
   "text/plain",
   "application/msword",
   "application/vnd.openxmlformats-officedocument.wordprocessingml.document",
   "application/vnd.ms-powerpoint",
   "application/vnd.openxmlformats-officedocument.presentationml.presentation",
   "image/jpeg",
   "image/png",
   "image/gif",
   "image/webp",
   "text/html"]

/-- The fields of a browser `File` the validation reads. -/
structure JsFile where
  name : String
  size : Nat
  type : String
deriving DecidableEq, Repr

/-- `validateFile`: `some errorText` when rejected, `none` when accepted. -/
def validateFile (file : JsFile) : Option String :=
  if file.size > MAX_FILE_SIZE then some "File size exceeds 20MB limit"
  else if !(SUPPORTED_FORMATS.contains file.type) then
    some "Unsupported file format. Please upload a PDF, TXT, DOC, DOCX, PPT, PPTX, HTML, or image file (JPEG, PNG, GIF, WEBP)"
  else none

/-- The entry `FileContext` keeps per uploaded file (the fields the claim
is about). -/
structure UploadedFile where
  name : String
  type : String
  size : Nat
deriving DecidableEq, Repr

/-- `FileContext.addFile` via `uploadFile`: appends unconditionally. -/
def uploadFile (files : List UploadedFile) (file : JsFile) : List UploadedFile :=
  files ++ [{ name := file.name, type := file.type, size := file.size }]

/-- Outcome of `extractPdfText(file)`: the extracted `fullText`, or the
error it throws (invalid PDF, or no extractable text).  The outcome
depends on the file bytes, which the embedding takes as an input. -/
inductive PdfExtract
  | ok (fullText : String)
  | err (msg : String)

/-- `FileUpload.handleFileChange`: validates the first selected file; for
a PDF, runs text extraction and, when it throws or yields falsy text,
adds nothing; otherwise uploads the file. -/
def handleFileChange (files : List UploadedFile) (selected : List JsFile)
    (extract : PdfExtract) : List UploadedFile :=
  match selected with
  | [] => files
  | file :: _ =>
    match validateFile file with
    | some _ => files
    | none =>
      if file.type = "application/pdf" then
        match extract with
        | .err _ => files
        | .ok text => if text = "" then files else uploadFile files file
      else uploadFile files file

/-- `FileUpload.handleFileDrop`: uploads the first dropped file without
calling `validateFile`. -/
def handleFileDrop (files : List UploadedFile) (dropped : List JsFile) :
    List UploadedFile :=
  match dropped with
  | [] => files
  | file :: _ => uploadFile files file

/-! ## Claim theorems -/

/-- C9: `getRules(level, isSimplifying)` always returns a prefix of a fixed
15-rule list; for levels `l ≤ l'` in 1..5 the simplifying rule set at `l'`
is a prefix of the one at `l` (count non-increasing, 15 at level 1 down to
3 at level 5), and the sophisticating rule set at `l` is a prefix of the
one at `l'` (count non-decreasing). -/
theorem getRules_prefix_monotone :
    (∀ (level : Nat) (isSimplifying : Bool),
        getRules level isSimplifying <+:
          (if isSimplifying then simplificationRulesL1 else complexityRulesL5))
    ∧ simplificationRulesL1.length = 15
    ∧ complexityRulesL5.length = 15
    ∧ (∀ l l' : Nat, 1 ≤ l → l ≤ l' → l' ≤ 5 →
        getRules l' true <+: getRules l true ∧
        getRules l false <+: getRules l' false)
    ∧ (getRules 1 true).length = 15 ∧ (getRules 5 true).length = 3
    ∧ (getRules 1 false).length = 3 ∧ (getRules 5 false).length = 15 := by
  refine ⟨?_, rfl, rfl, ?_, rfl, rfl, rfl, rfl⟩
  · intro level b
    cases b
    · exact take_isPre _ _
    · exact take_isPre _ _
  · intro l l' h1 h2 h3
    constructor
    · exact take_isPre_mono _
        (Nat.mul_le_mul_right _ (Nat.sub_le_sub_left h2 6))
    · exact take_isPre_mono _ (Nat.mul_le_mul_right _ h2)

/-- Witness for C9 at concrete levels 2 ≤ 4. -/
theorem getRules_prefix_monotone_witness :
    (1 ≤ 2 ∧ 2 ≤ 4 ∧ 4 ≤ 5) ∧
    (getRules 4 true <+: getRules 2 true ∧ getRules 2 false <+: getRules 4 false) :=
  ⟨by decide, getRules_prefix_monotone.2.2.2.1 2 4 (by decide) (by decide) (by decide)⟩

/-- C8: `canMakeRequest()` holds exactly when strictly fewer than
`maxRequestsPerMinute` recorded timestamps lie within the preceding
60000 ms, and `getTimeUntilNextRequest()` is 0 exactly when
`canMakeRequest()` holds and otherwise is the positive remaining time
until the oldest in-window timestamp leaves the window. -/
theorem rateLimiter_spec (s : RateLimiter) (now : Int)
    (h : 0 < s.maxRequestsPerMinute) :
    ((canMakeRequest s now).1 = true ↔
      (s.requests.filter (fun t => now - t < 60000)).length <
        s.maxRequestsPerMinute)
    ∧ ((getTimeUntilNextRequest s now).1 = 0 ↔ (canMakeRequest s now).1 = true)
    ∧ ((canMakeRequest s now).1 = false →
        ∃ oldest, mathMin (filterWindow now s.requests) = some oldest ∧
          oldest ∈ filterWindow now s.requests ∧
          (getTimeUntilNextRequest s now).1 =
            requestInterval - (now - oldest) ∧
          0 < (getTimeUntilNextRequest s now).1) := by
  have hfw : filterWindow now s.requests =
      s.requests.filter (fun t => now - t < 60000) := rfl
  have hcan : (canMakeRequest s now).1 =
      decide ((filterWindow now s.requests).length < s.maxRequestsPerMinute) := rfl
  have key : (canMakeRequest s now).1 = false →
      ∃ oldest, mathMin (filterWindow now s.requests) = some oldest ∧
        oldest ∈ filterWindow now s.requests ∧
        (getTimeUntilNextRequest s now).1 =
          requestInterval - (now - oldest) ∧
        0 < (getTimeUntilNextRequest s now).1 := by
    intro hfalse
    have hge : s.maxRequestsPerMinute ≤ (filterWindow now s.requests).length := by
      by_contra hlt
      rw [hcan, decide_eq_false_iff_not] at hfalse
      exact hfalse (Nat.lt_of_not_le hlt)
    have hne : filterWindow now s.requests ≠ [] := by
      intro hnil
      rw [hnil] at hge
      simp at hge
      omega
    obtain ⟨oldest, hmin⟩ :
        ∃ a, (filterWindow now s.requests).min? = some a := by
      cases hl : filterWindow now s.requests with
      | nil => exact absurd hl hne
      | cons a l => exact ⟨_, List.min?_cons⟩
    have hmem : oldest ∈ filterWindow now s.requests :=
      List.min?_mem (fun x y => min_choice x y) hmin
    have hwin : now - oldest < requestInterval := by
      have := List.mem_filter.mp hmem
      simpa using this.2
    have hval : (getTimeUntilNextRequest s now).1 =
        requestInterval - (now - oldest) := by
      simp only [getTimeUntilNextRequest, hfalse, Bool.false_eq_true, if_false]
      rw [show mathMin (canMakeRequest s now).2.requests =
            mathMin (filterWindow now s.requests) from rfl,
          show mathMin (filterWindow now s.requests) = some oldest from hmin]
    exact ⟨oldest, hmin, hmem, hval, by rw [hval]; omega⟩
  refine ⟨?_, ?_, key⟩
  · rw [hcan, ← hfw]
    exact decide_eq_true_iff
  · constructor
    · intro h0
      by_contra hne
      have hfalse : (canMakeRequest s now).1 = false := by
        cases hc : (canMakeRequest s now).1
        · rfl
        · exact absurd hc hne
      obtain ⟨oldest, _, _, hval, hpos⟩ := key hfalse
      rw [h0] at hpos
      exact absurd hpos (by omega)
    · intro htrue
      simp only [getTimeUntilNextRequest, htrue, if_true]

/-- Witness for C8: two in-window timestamps against a limit of 1. -/
theorem rateLimiter_spec_witness :
    0 < (RateLimiter.mk [100, 200] 1).maxRequestsPerMinute ∧
    (((canMakeRequest (RateLimiter.mk [100, 200] 1) 50000).1 = true ↔
      (([100, 200] : List Int).filter (fun t => 50000 - t < 60000)).length < 1)
    ∧ (((getTimeUntilNextRequest (RateLimiter.mk [100, 200] 1) 50000).1 = 0) ↔
        (canMakeRequest (RateLimiter.mk [100, 200] 1) 50000).1 = true)
    ∧ ((canMakeRequest (RateLimiter.mk [100, 200] 1) 50000).1 = false →
        ∃ oldest,
          mathMin (filterWindow 50000 (RateLimiter.mk [100, 200] 1).requests) =
            some oldest ∧
          oldest ∈ filterWindow 50000 (RateLimiter.mk [100, 200] 1).requests ∧
          (getTimeUntilNextRequest (RateLimiter.mk [100, 200] 1) 50000).1 =
            requestInterval - (50000 - oldest) ∧
          0 < (getTimeUntilNextRequest (RateLimiter.mk [100, 200] 1) 50000).1)) :=
  ⟨by decide, rateLimiter_spec (RateLimiter.mk [100, 200] 1) 50000 (by decide)⟩

/-- C10 counterexample: a file over the 20 MB limit with an unsupported
MIME type enters the lecture page's file list when dropped onto the
drag-and-drop zone — `handleFileDrop` never calls `validateFile`. -/
theorem fileDrop_counterexample :
    handleFileDrop []
        [{ name := "big.bin", size := MAX_FILE_SIZE + 1, type := "application/zip" }] =
      [{ name := "big.bin", type := "application/zip", size := MAX_FILE_SIZE + 1 }]
    ∧ MAX_FILE_SIZE + 1 > MAX_FILE_SIZE
    ∧ SUPPORTED_FORMATS.contains "application/zip" = false
    ∧ validateFile
        { name := "big.bin", size := MAX_FILE_SIZE + 1, type := "application/zip" } =
      some "File size exceeds 20MB limit" := by
  refine ⟨rfl, by omega, by decide, rfl⟩

/-- A file that passes `validateFile` satisfies both limits. -/
lemma validateFile_none_limits (file : JsFile) (hv : validateFile file = none) :
    file.size ≤ MAX_FILE_SIZE ∧ SUPPORTED_FORMATS.contains file.type = true := by
  have hsize : ¬ file.size > MAX_FILE_SIZE := by
    intro hgt
    simp [validateFile, hgt] at hv
  have hfmt : SUPPORTED_FORMATS.contains file.type = true := by
    by_contra hc
    have hc' : SUPPORTED_FORMATS.contains file.type = false := by
      cases h : SUPPORTED_FORMATS.contains file.type
      · rfl
      · exact absurd h hc
    simp [validateFile, hsize, hc'] at hv
    exact absurd hv (by simpa using hc')
  exact ⟨by omega, hfmt⟩

/-- C10 amended: every file the picker adds to the lecture file list
satisfies the 20 MB limit and the supported-format list (and a PDF is only
added when its text extraction succeeds with nonempty text, a rejected
file or a failed extraction adding nothing); files dropped onto the
drag-and-drop zone are appended without validation. -/
theorem fileAccept_amended (files : List UploadedFile) (file : JsFile)
    (extract : PdfExtract) :
    (∀ f, f ∈ handleFileChange files [file] extract →
      f ∈ files ∨
        (file.size ≤ MAX_FILE_SIZE
         ∧ SUPPORTED_FORMATS.contains file.type = true
         ∧ f = { name := file.name, type := file.type, size := file.size }))
    ∧ (validateFile file = none → file.type ≠ "application/pdf" →
        handleFileChange files [file] extract =
          files ++ [{ name := file.name, type := file.type, size := file.size }])
    ∧ (∀ text, validateFile file = none → file.type = "application/pdf" →
        extract = PdfExtract.ok text → text ≠ "" →
        handleFileChange files [file] extract =
          files ++ [{ name := file.name, type := file.type, size := file.size }])
    ∧ (∀ m, validateFile file = none → file.type = "application/pdf" →
        extract = PdfExtract.err m →
        handleFileChange files [file] extract = files)
    ∧ (∀ e, validateFile file = some e →
        handleFileChange files [file] extract = files)
    ∧ handleFileDrop files [file] =
        files ++ [{ name := file.name, type := file.type, size := file.size }] := by
  refine ⟨?_, ?_, ?_, ?_, ?_, rfl⟩
  · intro f hf
    cases hv : validateFile file with
    | some e =>
      have heq : handleFileChange files [file] extract = files := by
        simp [handleFileChange, hv]
      rw [heq] at hf
      exact Or.inl hf
    | none =>
      obtain ⟨hsize, hfmt⟩ := validateFile_none_limits file hv
      by_cases hpdf : file.type = "application/pdf"
      · cases hex : extract with
        | err m =>
          have heq : handleFileChange files [file] extract = files := by
            simp [handleFileChange, hv, hpdf, hex]
          rw [heq] at hf
          exact Or.inl hf
        | ok text =>
          by_cases ht : text = ""
          · have heq : handleFileChange files [file] extract = files := by
              simp [handleFileChange, hv, hpdf, hex, ht]
            rw [heq] at hf
            exact Or.inl hf
          · have heq : handleFileChange files [file] extract =
                files ++ [{ name := file.name, type := file.type, size := file.size }] := by
              simp [handleFileChange, hv, hpdf, hex, ht, uploadFile]
            rw [heq] at hf
            rcases List.mem_append.mp hf with h | h
            · exact Or.inl h
            · exact Or.inr ⟨hsize, hfmt, by simpa using h⟩
      · have heq : handleFileChange files [file] extract =
            files ++ [{ name := file.name, type := file.type, size := file.size }] := by
          simp [handleFileChange, hv, hpdf, uploadFile]
        rw [heq] at hf
        rcases List.mem_append.mp hf with h | h
        · exact Or.inl h
        · exact Or.inr ⟨hsize, hfmt, by simpa using h⟩
  · intro hv hpdf
    simp [handleFileChange, hv, hpdf, uploadFile]
  · intro text hv hpdf hex ht
    subst hex
    simp [handleFileChange, hv, hpdf, ht, uploadFile]
  · intro m hv hpdf hex
    subst hex
    simp [handleFileChange, hv, hpdf]
  · intro e he
    simp [handleFileChange, he]

/-- Witness for the amended C10 theorem: a valid text file is appended, a
valid PDF is appended exactly when extraction succeeds with nonempty
text, and an extraction failure adds nothing. -/
theorem fileAccept_amended_witness :
    (validateFile { name := "n.txt", size := 5, type := "text/plain" } = none
      ∧ ("text/plain" : String) ≠ "application/pdf"
      ∧ handleFileChange [] [{ name := "n.txt", size := 5, type := "text/plain" }]
          (PdfExtract.ok "t") =
        [] ++ [{ name := "n.txt", type := "text/plain", size := 5 }])
    ∧ (validateFile { name := "a.pdf", size := 5, type := "application/pdf" } = none
      ∧ handleFileChange [] [{ name := "a.pdf", size := 5, type := "application/pdf" }]
          (PdfExtract.ok "extracted text") =
        [] ++ [{ name := "a.pdf", type := "application/pdf", size := 5 }]
      ∧ handleFileChange [] [{ name := "a.pdf", size := 5, type := "application/pdf" }]
          (PdfExtract.err "Failed to extract text from PDF") = []) := by
  refine ⟨⟨by decide, by decide, ?_⟩, by decide, ?_, ?_⟩
  · exact (fileAccept_amended [] { name := "n.txt", size := 5, type := "text/plain" }
      (PdfExtract.ok "t")).2.1 (by decide) (by decide)
  · exact (fileAccept_amended [] { name := "a.pdf", size := 5, type := "application/pdf" }
      (PdfExtract.ok "extracted text")).2.2.1 "extracted text"
      (by decide) rfl rfl (by decide)
  · exact (fileAccept_amended [] { name := "a.pdf", size := 5, type := "application/pdf" }
      (PdfExtract.err "Failed to extract text from PDF")).2.2.2.1
      "Failed to extract text from PDF" (by decide) rfl rfl

/-- C7 counterexample: on the transform page, a transform failure whose
token error message contains `Missing Refresh Token` only produces the
visible message `Authentication session expired. Please log out and log
back in.` — it does not trigger a re-authentication redirect. -/
theorem tokenRedirect_counterexample :
    strContains "Missing Refresh Token" "Missing Refresh Token" = true
    ∧ transformPageTokenCatch "Missing Refresh Token" =
        TokenErrorAction.sessionExpiredMessage
          "Authentication session expired. Please log out and log back in."
    ∧ tokenActionRedirects (transformPageTokenCatch "Missing Refresh Token") = false := by
  refine ⟨by decide, by decide, by decide⟩

/-- C7 amended: only the lecture page triggers a re-authentication
redirect on an expired-token transform failure (`Missing Refresh Token`);
the transform page shows the session-expired message (or rethrows to an
error display) and never redirects. -/
theorem tokenRedirect_amended (m : String) :
    (strContains m "Missing Refresh Token" = true →
      (lectureTransformCatch m).redirects = true
      ∧ (lectureTransformCatch m).errorMsg =
          "Your session has expired. Please log in again.")
    ∧ tokenActionRedirects (transformPageTokenCatch m) = false
    ∧ (strContains m "Missing Refresh Token" = true ∨
        strContains m "invalid_grant" = true →
      transformPageTokenCatch m =
        TokenErrorAction.sessionExpiredMessage
          "Authentication session expired. Please log out and log back in.") := by
  refine ⟨?_, ?_, ?_⟩
  · intro hm
    simp [lectureTransformCatch, hm]
  · cases h : transformPageTokenCatch m <;> rfl
  · intro hm
    have : (strContains m "Missing Refresh Token" ||
        strContains m "invalid_grant") = true := by
      rcases hm with hm | hm <;> simp [hm]
    simp [transformPageTokenCatch, this]

/-- Witness for C7's amended theorem at `m = "Missing Refresh Token"`. -/
theorem tokenRedirect_amended_witness :
    strContains "Missing Refresh Token" "Missing Refresh Token" = true
    ∧ ((lectureTransformCatch "Missing Refresh Token").redirects = true
      ∧ (lectureTransformCatch "Missing Refresh Token").errorMsg =
          "Your session has expired. Please log in again.") :=
  ⟨by decide, (tokenRedirect_amended "Missing Refresh Token").1 (by decide)⟩

/-- C1 counterexample: the lecture page's transform invocation serialises
a body whose fields are not exactly `text`, `transformationType`,
`level` — it also contains `isLecture`. -/
theorem transformBody_counterexample :
    requestBodyFields (lecturePageRequest "hello" "simplify" 1) =
      ["text", "transformationType", "level", "isLecture"]
    ∧ requestBodyFields (lecturePageRequest "hello" "simplify" 1) ≠
        ["text", "transformationType", "level"] := by
  refine ⟨rfl, by decide⟩

/-- C1 amended: every transform invocation POSTs to
`API_URL + '/api/transform'` with a JSON body containing the fields
`text`, `transformationType` and `level` — exactly these for the transform
page, with an additional `isLecture: true` for the lecture page — and the
caller receives the `transformedText` field of the response. -/
theorem transformCall_amended (apiUrl : String) (r : TransformRequest)
    (resp : TransformResponse) :
    (transformTextCall apiUrl r).method = "POST"
    ∧ (transformTextCall apiUrl r).url = apiUrl ++ "/api/transform"
    ∧ ["text", "transformationType", "level"] <+:
        (transformTextCall apiUrl r).bodyFields
    ∧ (r.isLecture = none →
        (transformTextCall apiUrl r).bodyFields =
          ["text", "transformationType", "level"])
    ∧ (∀ t ty lv, (transformPageRequest t ty lv).isLecture = none)
    ∧ (∀ t ty lv, (lecturePageRequest t ty lv).isLecture = some true)
    ∧ deliverTransformResponse resp = resp.transformedText := by
  refine ⟨rfl, rfl, ?_, ?_, fun t ty lv => rfl, fun t ty lv => rfl, rfl⟩
  · exact ⟨_, rfl⟩
  · intro hn
    simp [transformTextCall, requestBodyFields, hn]

/-- Witness for C1's amended theorem: a transform-page request serialises
exactly the three declared fields. -/
theorem transformCall_amended_witness :
    (transformPageRequest "hi" "simplify" 3).isLecture = none
    ∧ (transformTextCall "https://api" (transformPageRequest "hi" "simplify" 3)).bodyFields =
        ["text", "transformationType", "level"] :=
  ⟨rfl,
   (transformCall_amended "https://api" (transformPageRequest "hi" "simplify" 3)
     ⟨"out"⟩).2.2.2.1 rfl⟩

/-- C6: the upload request loop makes at most `maxRetries = 3` attempts;
the realised backoff delays are always an initial segment of
`[1000, 2000]` ms, so each delay doubles the previous one, and when every
attempt fails the loop performs exactly 3 attempts with delays
`[1000, 2000]`. -/
theorem uploadRetry_spec (attempts : Nat → AttemptResult) :
    (uploadRetryLoop attempts).2.1 ≤ maxRetries
    ∧ (uploadRetryLoop attempts).1 <+: [1000, 2000]
    ∧ List.Chain' (fun a b => b = 2 * a) (uploadRetryLoop attempts).1
    ∧ ((∀ k, k < maxRetries → ∃ m, attempts k = AttemptResult.err m) →
        (uploadRetryLoop attempts).2.1 = 3
        ∧ (uploadRetryLoop attempts).1 = [1000, 2000]) := by
  rcases h0 : attempts 0 with v0 | m0
  · have hres : uploadRetryLoop attempts = ([], 1, .ok v0) := by
      simp [uploadRetryLoop, maxRetries, retryGo, h0]
    refine ⟨by rw [hres] <;> simp [maxRetries], by rw [hres] <;> simp,
            by rw [hres] <;> simp, ?_⟩
    intro hall
    obtain ⟨m, hm⟩ := hall 0 (by decide)
    rw [h0] at hm
    exact absurd hm (by simp)
  · rcases h1 : attempts 1 with v1 | m1
    · have hres : uploadRetryLoop attempts = ([1000], 2, .ok v1) := by
        simp [uploadRetryLoop, maxRetries, retryGo, h0, h1]
      refine ⟨by rw [hres] <;> simp [maxRetries], by rw [hres] <;> simp,
              by rw [hres] <;> simp [List.chain'_cons], ?_⟩
      intro hall
      obtain ⟨m, hm⟩ := hall 1 (by decide)
      rw [h1] at hm
      exact absurd hm (by simp)
    · rcases h2 : attempts 2 with v2 | m2
      · have hres : uploadRetryLoop attempts = ([1000, 2000], 3, .ok v2) := by
          simp [uploadRetryLoop, maxRetries, retryGo, h0, h1, h2]
        refine ⟨by rw [hres] <;> simp [maxRetries], by rw [hres] <;> rfl,
                by rw [hres] <;> simp [List.chain'_cons], ?_⟩
        intro hall
        exact ⟨by rw [hres], by rw [hres]⟩
      · have hres : uploadRetryLoop attempts =
            ([1000, 2000], 3, .error (some m2)) := by
          simp [uploadRetryLoop, maxRetries, retryGo, h0, h1, h2]
        refine ⟨by rw [hres] <;> simp [maxRetries], by rw [hres] <;> rfl,
                by rw [hres] <;> simp [List.chain'_cons], ?_⟩
        intro hall
        exact ⟨by rw [hres], by rw [hres]⟩

/-- Witness for C6: all attempts failing gives exactly three attempts with
backoff delays 1000 ms and 2000 ms. -/
theorem uploadRetry_spec_witness :
    (uploadRetryLoop (fun _ => AttemptResult.err "boom")).2.1 = 3
    ∧ (uploadRetryLoop (fun _ => AttemptResult.err "boom")).1 = [1000, 2000] :=
  (uploadRetry_spec (fun _ => AttemptResult.err "boom")).2.2.2
    (fun _ _ => ⟨"boom", rfl⟩)

/-- C3 counterexample: a PDF upload whose response body carries
`document_id` together with `status: "processing"` and a
`check_status_url` is displayed immediately from an object URL — the
polling state is not entered even though the body has the polling
fields. -/
theorem uploadDispatch_counterexample :
    dispatchUpload "application/pdf" true
        { document_id := some "doc1", status := some "processing",
          check_status_url := some "/api/presentations/status/doc1" } "https://api" =
      UploadAction.displayPdfDirect "doc1"
    ∧ dispatchUpload "application/pdf" true
        { document_id := some "doc1", status := some "processing",
          check_status_url := some "/api/presentations/status/doc1" } "https://api" ≠
      UploadAction.poll "/api/presentations/status/doc1"
    ∧ ({ document_id := some "doc1", status := some "processing",
         check_status_url := some "/api/presentations/status/doc1"} :
          UploadBody).status = some "processing"
    ∧ truthyS ({ document_id := some "doc1", status := some "processing",
                 check_status_url := some "/api/presentations/status/doc1"} :
          UploadBody).check_status_url = true := by
  refine ⟨by decide, by decide, rfl, by decide⟩

/-- C3 amended: on an OK response with no `error` field, and when the
early PDF/PowerPoint `document_id` display branches do not apply, the
client enters the polling state exactly when the body has
`status: "processing"` and a truthy `check_status_url`; otherwise a truthy
`url` displays `apiUrl + url`, and a body with neither fails with
`'No URL or status check URL returned from server'`.  Conversely, the
polling state is only ever entered with those two fields present. -/
theorem uploadDispatch_amended (fileType : String) (ok : Bool)
    (body : UploadBody) (apiUrl : String) :
    (∀ u, dispatchUpload fileType ok body apiUrl = UploadAction.poll u →
      ok = true ∧ truthyS body.error = false
      ∧ body.status = some "processing"
      ∧ truthyS body.check_status_url = true
      ∧ u = jsOr body.check_status_url "")
    ∧ (ok = true → truthyS body.error = false →
       (decide (fileType = pdfMime) && truthyS body.document_id) = false →
       (isPowerPointType fileType && truthyS body.document_id) = false →
       ((body.status = some "processing" ∧ truthyS body.check_status_url = true →
          dispatchUpload fileType ok body apiUrl =
            UploadAction.poll (jsOr body.check_status_url ""))
       ∧ (¬(body.status = some "processing" ∧ truthyS body.check_status_url = true) →
          truthyS body.url = true →
          dispatchUpload fileType ok body apiUrl =
            UploadAction.displayUrl (apiUrl ++ jsOr body.url ""))
       ∧ (¬(body.status = some "processing" ∧ truthyS body.check_status_url = true) →
          truthyS body.url = false →
          dispatchUpload fileType ok body apiUrl =
            UploadAction.throwError "No URL or status check URL returned from server"))) := by
  constructor
  · intro u hu
    unfold dispatchUpload at hu
    repeat' split at hu
    all_goals simp_all
  · intro h1 h2 h3 h4
    have hpoll_false :
        ¬(body.status = some "processing" ∧ truthyS body.check_status_url = true) →
        (decide (body.status = some "processing") &&
          truthyS body.check_status_url) = false := by
      intro hns
      by_cases hs : body.status = some "processing"
      · have hcs : truthyS body.check_status_url = false := by
          cases h : truthyS body.check_status_url
          · rfl
          · exact absurd ⟨hs, h⟩ hns
        simp [hcs]
      · simp [hs]
    refine ⟨?_, ?_, ?_⟩
    · rintro ⟨hs, hc⟩
      simp [dispatchUpload, h1, h2, h3, h4, hs, hc]
    · intro hns hurl
      simp [dispatchUpload, h1, h2, h3, h4, hpoll_false hns, hurl]
    · intro hns hurl
      simp [dispatchUpload, h1, h2, h3, h4, hpoll_false hns, hurl]

/-- Witness for C3's amended theorem: a DOCX upload with a processing
body enters the polling state. -/
theorem uploadDispatch_amended_witness :
    dispatchUpload "application/msword" true
        { status := some "processing", check_status_url := some "/api/status/d2" }
        "https://api" =
      UploadAction.poll (jsOr (some "/api/status/d2") "") :=
  ((uploadDispatch_amended "application/msword" true
      { status := some "processing", check_status_url := some "/api/status/d2" }
      "https://api").2 rfl rfl (by decide) (by decide)).1
    ⟨rfl, by decide⟩

/-- Every level-select option value parses to an integer in 1..5. -/
lemma levelOption_bounds (t : String) (p : String × String)
    (hp : p ∈ getLevelOptions t) :
    1 ≤ jsParseInt p.1 ∧ jsParseInt p.1 ≤ 5 := by
  unfold getLevelOptions at hp
  repeat' split at hp
  all_goals
    simp only [List.mem_cons, List.not_mem_nil, or_false] at hp
  all_goals try rcases hp with rfl | rfl | rfl | rfl | rfl <;> decide

/-- C4: a transform request is submitted only when the text is within its
page's ceiling (250 on the transform page, 1000 on the lecture page), the
type is one of the four enum values and the level (taken from the level
selects) is an integer in 1..5; text over the ceiling produces an error
message, no request, and leaves the output unchanged. -/
theorem inputValidation_spec (inputText transformType transformLevel : String)
    (rl : RateLimiter) (now : Int) :
    (∀ req, handleTransformValidate inputText transformType transformLevel rl now =
        TPOutcome.request req →
      req.text = inputText ∧ inputText.length ≤ 250
      ∧ req.transformationType = transformType
      ∧ req.level = jsParseInt transformLevel
      ∧ (transformType ∈ transformTypeOptionValues →
          req.transformationType ∈ transformTypeOptionValues)
      ∧ (∀ lbl, (transformLevel, lbl) ∈ getLevelOptions transformType →
          1 ≤ req.level ∧ req.level ≤ 5))
    ∧ (inputText.length > 250 →
        (∃ msg, handleTransformValidate inputText transformType transformLevel rl now =
          TPOutcome.errorMsg msg)
        ∧ (jsTrim inputText ≠ "" →
            handleTransformValidate inputText transformType transformLevel rl now =
              TPOutcome.errorMsg "Text cannot exceed 250 characters"))
    ∧ (∀ (prev : String) (respond : TransformRequest → TransformResponse) msg,
        handleTransformValidate inputText transformType transformLevel rl now =
          TPOutcome.errorMsg msg →
        outputAfterTransform prev (TPOutcome.errorMsg msg) respond = prev)
    ∧ (∀ (text ty : String) (lv : Int),
        (lectureIsOverLimit text = true →
          handleGenerateTransform (some text) (lectureIsOverLimit text) ty lv = none
          ∧ understandOutputLimitWarning (lectureIsOverLimit text) =
              some "Text exceeds 1000 character limit")
        ∧ (∀ req, handleGenerateTransform (some text) (lectureIsOverLimit text) ty lv =
            some req →
          req.text = text ∧ text.length ≤ 1000 ∧ req.transformationType = ty
          ∧ req.level = lv
          ∧ (lv ∈ understandLevelValues → 1 ≤ lv ∧ lv ≤ 5))) := by
  refine ⟨?_, ?_, ?_, ?_⟩
  · intro req hreq
    unfold handleTransformValidate at hreq
    repeat' split at hreq
    · simp at hreq
    · simp at hreq
    · simp at hreq
    · cases hreq
      refine ⟨rfl, by omega, rfl, rfl, fun h => h, fun lbl hl => ?_⟩
      exact levelOption_bounds transformType (transformLevel, lbl) hl
  · intro h250
    constructor
    · by_cases htrim : jsTrim inputText = ""
      · exact ⟨"Please enter some text to transform",
          by simp [handleTransformValidate, htrim]⟩
      · exact ⟨"Text cannot exceed 250 characters",
          by simp [handleTransformValidate, htrim, h250]⟩
    · intro htrim
      simp [handleTransformValidate, htrim, h250]
  · intro prev respond msg _
    rfl
  · intro text ty lv
    constructor
    · intro hov
      refine ⟨?_, by simp [understandOutputLimitWarning, hov]⟩
      cases h : truthyS (some text) <;>
        simp [handleGenerateTransform, h, hov]
    · intro req hreq
      unfold handleGenerateTransform at hreq
      by_cases ht : truthyS (some text) = true
      · rw [ht] at hreq
        simp only [Bool.not_true, Bool.false_eq_true, if_false] at hreq
        by_cases hov : lectureIsOverLimit text = true
        · rw [hov] at hreq
          simp at hreq
        · have hov' : lectureIsOverLimit text = false := by
            cases h : lectureIsOverLimit text
            · rfl
            · exact absurd h hov
          rw [hov'] at hreq
          simp only [Bool.false_eq_true, if_false] at hreq
          cases hreq
          have hne : text ≠ "" := by simpa [truthyS] using ht
          have hlen : text.length ≤ 1000 := by
            have := hov'
            unfold lectureIsOverLimit lectureCharacterLimit at this
            simpa using this
          refine ⟨by simp [lecturePageRequest, jsOr, hne], hlen, rfl, rfl, ?_⟩
          intro hlv
          simp only [understandLevelValues, List.mem_cons,
            List.not_mem_nil, or_false] at hlv
          rcases hlv with rfl | rfl | rfl | rfl | rfl <;> decide
      · have ht' : truthyS (some text) = false := by
          cases h : truthyS (some text)
          · rfl
          · exact absurd h ht
        rw [ht'] at hreq
        simp at hreq

/-- Witness for C4 at a concrete in-range input. -/
theorem inputValidation_spec_witness :
    handleTransformValidate "hello" "simplify" "3" (RateLimiter.mk [] 60) 0 =
      TPOutcome.request
        (transformPageRequest "hello" "simplify" (jsParseInt "3"))
    ∧ ("hello" : String).length ≤ 250
    ∧ 1 ≤ jsParseInt "3" ∧ jsParseInt "3" ≤ 5 := by
  have h := (inputValidation_spec "hello" "simplify" "3"
      (RateLimiter.mk [] 60) 0).1
      (transformPageRequest "hello" "simplify" (jsParseInt "3")) (by decide)
  exact ⟨by decide, h.2.1,
    (h.2.2.2.2.2 "Level 3 - High School (Age 14-15)" (by decide))⟩

/-- The polling loop performs at most `fuel` further status checks. -/
lemma pollGo_countChecks (isPdf : Bool) (apiUrl docId : String)
    (steps : Nat → PollStep) :
    ∀ fuel i, countChecks (pollGo isPdf apiUrl docId steps i fuel) ≤ fuel := by
  intro fuel
  induction fuel with
  | zero => intro i; simp [pollGo, countChecks]
  | succ n ih =>
    intro i
    cases hs : steps i with
    | failed => simp [pollGo, hs, countChecks]
    | data d =>
      by_cases hr : statusReady d = true
      · simp [pollGo, hs, hr, countChecks]
      · have hr' : statusReady d = false := by
          cases h : statusReady d
          · rfl
          · exact absurd h hr
        by_cases he : d.status = "error"
        · simp [pollGo, hs, hr', he, countChecks]
        · by_cases hp : (decide (5 ≤ i) && decide (d.status = "processing") &&
              isPdf) = true
          · simp [pollGo, hs, hr', he, hp, countChecks]
          · have hp' := Bool.eq_false_iff.mpr hp
            have := ih (i + 1)
            simp [pollGo, hs, hr', he, hp', countChecks]
            omega

set_option maxRecDepth 4000 in
/-- Every status check in the polling trace is immediately preceded by a
2000 ms wait. -/
lemma pollGo_checksPreceded (isPdf : Bool) (apiUrl docId : String)
    (steps : Nat → PollStep) :
    ∀ fuel i, checksPreceded (pollGo isPdf apiUrl docId steps i fuel) = true := by
  intro fuel
  induction fuel with
  | zero => intro i; simp [pollGo, checksPreceded]
  | succ n ih =>
    intro i
    cases hs : steps i with
    | failed => simp [pollGo, hs, checksPreceded]
    | data d =>
      by_cases hr : statusReady d = true
      · simp [pollGo, hs, hr, checksPreceded]
      · have hr' : statusReady d = false := by
          cases h : statusReady d
          · rfl
          · exact absurd h hr
        by_cases he : d.status = "error"
        · simp [pollGo, hs, hr', he, checksPreceded]
        · by_cases hp : (decide (5 ≤ i) && decide (d.status = "processing") &&
              isPdf) = true
          · simp [pollGo, hs, hr', he, hp, checksPreceded]
          · have hp' := Bool.eq_false_iff.mpr hp
            have := ih (i + 1)
            simp [pollGo, hs, hr', he, hp', checksPreceded]
            exact this

/-- When every check of a non-PDF upload keeps reporting `processing`, the
loop runs out of checks and throws the timeout error. -/
lemma pollGo_timeout (apiUrl docId : String) (steps : Nat → PollStep)
    (h : ∀ j, j < maxStatusChecks →
      ∃ d, steps j = PollStep.data d ∧ d.status = "processing") :
    ∀ fuel i, i + fuel = maxStatusChecks →
      ∃ pre, pollGo false apiUrl docId steps i fuel =
        pre ++ [UEvent.throwErr "Document processing timed out"] := by
  intro fuel
  induction fuel with
  | zero => intro i _; exact ⟨[], rfl⟩
  | succ n ih =>
    intro i hi
    obtain ⟨d, hd, hst⟩ := h i (by unfold maxStatusChecks at hi ⊢; omega)
    obtain ⟨pre, hpre⟩ := ih (i + 1) (by omega)
    refine ⟨UEvent.wait 2000 :: UEvent.check i :: pre, ?_⟩
    have hready : statusReady d = false := by simp [statusReady, hst]
    simp [pollGo, hd, hready, hst, hpre]

/-- C2: the polling loop makes at most 10 status checks, each preceded by
a 2000 ms wait; a failing status check stops polling and falls back to
displaying the guessed static-file URL
`/static/presentations/<document_id>/document.pdf`; and when all 10 checks
of a non-PDF upload report `processing`, the attempt throws
`'Document processing timed out'`. -/
theorem pollLoop_spec (isPdf : Bool) (apiUrl docId : String)
    (steps : Nat → PollStep) :
    countChecks (pollTrace isPdf apiUrl docId steps) ≤ maxStatusChecks
    ∧ checksPreceded (pollTrace isPdf apiUrl docId steps) = true
    ∧ (∀ i fuel, steps i = PollStep.failed →
        pollGo isPdf apiUrl docId steps i (fuel + 1) =
          [UEvent.wait 2000, UEvent.check i, UEvent.wait 5000,
           UEvent.display (statusFallbackUrl apiUrl docId)])
    ∧ statusFallbackUrl apiUrl docId =
        apiUrl ++ "/static/presentations/" ++ docId ++ "/document.pdf"
    ∧ ((∀ j, j < maxStatusChecks →
          ∃ d, steps j = PollStep.data d ∧ d.status = "processing") →
        isPdf = false →
        ∃ pre, pollTrace isPdf apiUrl docId steps =
          pre ++ [UEvent.throwErr "Document processing timed out"]) := by
  refine ⟨pollGo_countChecks isPdf apiUrl docId steps maxStatusChecks 0,
          pollGo_checksPreceded isPdf apiUrl docId steps maxStatusChecks 0,
          ?_, rfl, ?_⟩
  · intro i fuel hfail
    simp [pollGo, hfail]
  · intro hall hpdf
    subst hpdf
    exact pollGo_timeout apiUrl docId steps hall maxStatusChecks 0 rfl

/-- Witness for C2 at concrete step streams: a first-check failure falls
back to the guessed static URL, and ten `processing` answers time out. -/
theorem pollLoop_spec_witness :
    (pollGo true "https://api" "doc9" (fun _ => PollStep.failed) 0 (9 + 1) =
      [UEvent.wait 2000, UEvent.check 0, UEvent.wait 5000,
       UEvent.display (statusFallbackUrl "https://api" "doc9")])
    ∧ (∃ pre, pollTrace false "https://api" "doc9"
          (fun _ => PollStep.data { status := "processing", document_id := "d" }) =
        pre ++ [UEvent.throwErr "Document processing timed out"]) :=
  ⟨(pollLoop_spec true "https://api" "doc9" (fun _ => PollStep.failed)).2.2.1
      0 9 rfl,
   (pollLoop_spec false "https://api" "doc9"
      (fun _ => PollStep.data { status := "processing", document_id := "d" })).2.2.2.2
      (fun j _ => ⟨{ status := "processing", document_id := "d" }, rfl, rfl⟩) rfl⟩

lemma jsOr_ne_empty (a : Option String) (b : String) (hb : b ≠ "") :
    jsOr a b ≠ "" := by
  cases a with
  | none => exact hb
  | some s =>
    by_cases hs : s = ""
    · simp [jsOr, hs, hb]
    · simp [jsOr, hs]

lemma listContains_self_append [DecidableEq α] (p post : List α) :
    listContains p (p ++ post) = true :=
  listContains_of_isPre _ _ (listIsPre_self_append p post)

lemma listContains_mid_append [DecidableEq α] (pre p post : List α) :
    listContains p (pre ++ (p ++ post)) = true := by
  have := listContains_append pre p post
  rwa [List.append_assoc] at this

set_option maxRecDepth 100000 in
/-- C5 counterexample: a 500 response whose `detail` reports an OpenAI
connection error yields the `ApiRequestError` message `'Server error'`,
but the page replaces that message with `'OpenAI API Connection Error'`,
so the visible error string does not relay the message. -/
theorem transformError_counterexample :
    requestOutcome 500 false
        (ParseResult.parsed { message := none, detail := some openAIMarker }) =
      Except.error { status := 500, message := "Server error", detail := openAIMarker }
    ∧ strContains
        (displayTransformError
          { status := 500, message := "Server error", detail := openAIMarker })
        "Server error" = false := by
  exact ⟨rfl, by decide⟩

/-- C5 amended: every non-OK response makes the transform client throw an
`ApiRequestError` carrying that response's status and a nonempty message;
a 500 response with a truthy server `detail` yields message
`'Server error'` with that detail; and the page's visible error string
contains the error's message — except when the detail contains
`'OpenAI API error: Connection error'`, in which case the visible string
begins with `'OpenAI API Connection Error'` instead. -/
theorem transformError_amended (status : Nat) (parse : ParseResult)
    (data : ErrData) (e : ApiErrorS) :
    (∀ e', requestOutcome status false parse = Except.error e' →
      e'.status = status ∧ e'.message ≠ "")
    ∧ (∀ d, data.detail = some d → d ≠ "" →
        requestOutcome 500 false (ParseResult.parsed data) =
          Except.error { status := 500, message := "Server error", detail := d })
    ∧ (strContains e.detail openAIMarker = false →
        strContains (displayTransformError e) e.message = true)
    ∧ (strContains e.detail openAIMarker = true →
        ∃ rest, (displayTransformError e).data =
          ("OpenAI API Connection Error").data ++ rest) := by
  refine ⟨?_, ?_, ?_, ?_⟩
  · intro e' he'
    cases parse with
    | parseFailed m =>
      cases he'
      refine ⟨rfl, ?_⟩
      show ("Failed to parse server response" : String) ≠ ""
      decide
    | parsed d =>
      by_cases h5 : status = 500
      · subst h5
        simp only [requestOutcome, Bool.false_eq_true, if_false, if_pos rfl] at he'
        cases he'
        refine ⟨rfl, ?_⟩
        show ("Server error" : String) ≠ ""
        decide
      · simp only [requestOutcome, Bool.false_eq_true, if_false, if_neg h5] at he'
        cases he'
        exact ⟨rfl, jsOr_ne_empty _ _ (by decide)⟩
  · intro d hd hne
    simp [requestOutcome, hd, jsOr, hne]
  · intro hmark
    by_cases hm : e.message = ""
    · show listContains e.message.data (displayTransformError e).data = true
      rw [hm]
      exact listContains_of_isPre _ _ (by simp [listIsPre])
    · have hmsg0 : jsOr (some e.message) "API request failed" = e.message := by
        simp [jsOr, hm]
      by_cases h5 : e.status = 500
      · have hdisp : displayTransformError e =
            "Server error: " ++ e.message ++
              ". Our team has been notified of this issue." ++
              (if e.detail ≠ "" then "\n\nDetails: " ++ e.detail else "") ++
              "\n\nTroubleshooting steps:\n1. Try with different text\n2. Try a different transformation type\n3. Contact support if the issue persists" := by
          simp [displayTransformError, hmark, h5, hmsg0]
        show listContains e.message.data (displayTransformError e).data = true
        rw [hdisp]
        simp only [String.data_append, List.append_assoc]
        exact listContains_mid_append _ _ _
      · have hdisp : ∃ tail : String, displayTransformError e =
            e.message ++
              (if e.detail ≠ "" then "\n\nDetails: " ++ e.detail else "") ++ tail := by
          by_cases hconn : (strContains e.detail "Connection error" ||
              strContains e.detail "Failed to connect") = true
          · exact ⟨"\n\nTroubleshooting steps:\n1. Check your internet connection\n2. Verify the API server is running\n3. Try again in a few minutes",
              by simp [displayTransformError, hmark, h5, hmsg0, hconn]⟩
          · have hconn' := Bool.eq_false_iff.mpr hconn
            exact ⟨"", by simp [displayTransformError, hmark, h5, hmsg0, hconn']⟩
        obtain ⟨tail, htail⟩ := hdisp
        show listContains e.message.data (displayTransformError e).data = true
        rw [htail]
        simp only [String.data_append, List.append_assoc]
        exact listContains_self_append _ _
  · intro hmark
    refine ⟨((if e.detail ≠ "" then "\n\nDetails: " ++ e.detail else "") ++
        openAITroubleshooting).data, ?_⟩
    have hdisp : displayTransformError e =
        "OpenAI API Connection Error" ++
          (if e.detail ≠ "" then "\n\nDetails: " ++ e.detail else "") ++
          openAITroubleshooting := by
      simp [displayTransformError, hmark]
    rw [hdisp]
    simp [String.data_append, List.append_assoc]

/-- Witness for C5's amended theorem: a plain 500 `detail` is mapped to
the `'Server error'` payload and the page's visible string contains it. -/
theorem transformError_amended_witness :
    (({ message := none, detail := some "boom" } : ErrData).detail = some "boom"
      ∧ requestOutcome 500 false
          (ParseResult.parsed { message := none, detail := some "boom" }) =
        Except.error { status := 500, message := "Server error", detail := "boom" })
    ∧ strContains "boom" openAIMarker = false
    ∧ strContains
        (displayTransformError
          { status := 500, message := "Server error", detail := "boom" })
        "Server error" = true := by
  refine ⟨⟨rfl, ?_⟩, by decide, ?_⟩
  · exact (transformError_amended 500
      (ParseResult.parsed { message := none, detail := some "boom" })
      { message := none, detail := some "boom" }
      { status := 500, message := "Server error", detail := "boom" }).2.1
      "boom" rfl (by decide)
  · exact (transformError_amended 500
      (ParseResult.parsed { message := none, detail := some "boom" })
      { message := none, detail := some "boom" }
      { status := 500, message := "Server error", detail := "boom" }).2.2.1
      (by decide)

end Clarity
